import Mathlib

/-!
Shallow embedding of the AXS staking bot (src/bot.py, src/utils/binance.py,
src/utils/ronin.py).

External network calls are modelled by explicit outcome values supplied in an
environment: `Call.ok a` is a successful call returning `a`, `Call.apiErr` is a
`BinanceAPIException` raised by the underlying client (caught inside the thin
wrapper, which then returns its sentinel value), and `Call.exn` is any other
exception (which the thin wrappers do not catch, so it propagates to the
caller).  Fallible computations are values of `Except Unit α`.

Python floats are modelled as exact rationals; the one place a float NaN can
arise (`np.mean` of an empty list inside `calculate_rsi`, when fewer than two
candles are returned) is modelled explicitly by an `Option ℚ` result whose
`none` stands for NaN (every float comparison with NaN is false, which is how
the `none` case is consumed).

Side effects (logging, Telegram notifications, sleeps, stage entry) are
modelled as an event trace returned alongside each function result.
-/

deriving instance DecidableEq for Except

namespace AxsBot

/-- Outcome of one raw client/network call. -/
inductive Call (α : Type) where
  | ok (a : α)
  | apiErr
  | exn
deriving DecidableEq

/-- One formatted candlestick as built by `BinanceClient.get_klines`. -/
structure Kline where
  open_time : ℕ
  open_price : ℚ
  high_price : ℚ
  low_price : ℚ
  close_price : ℚ
  volume : ℚ
  close_time : ℕ
deriving DecidableEq

/-- A market-buy order as returned by the exchange (the fields the bot reads). -/
structure OrderData where
  status : String
  executedQty : ℚ
deriving DecidableEq

/-- A withdrawal acknowledgement as returned by the exchange. -/
structure WithdrawResult where
  id : String
deriving DecidableEq

/-- `BinanceClient.get_balance`: `BinanceAPIException` is caught and the
sentinel `Decimal('0')` returned; other exceptions propagate. -/
def get_balance (o : Call ℚ) : Except Unit ℚ :=
  match o with
  | .ok b => .ok b
  | .apiErr => .ok 0
  | .exn => .error ()

/-- `BinanceClient.get_klines`: `BinanceAPIException` is caught and the
sentinel `[]` returned; other exceptions propagate. -/
def get_klines (o : Call (List Kline)) : Except Unit (List Kline) :=
  match o with
  | .ok ks => .ok ks
  | .apiErr => .ok []
  | .exn => .error ()

/-- `BinanceClient.get_current_price`: `BinanceAPIException` is caught and the
sentinel `0.0` returned; other exceptions propagate. -/
def get_current_price (o : Call ℚ) : Except Unit ℚ :=
  match o with
  | .ok p => .ok p
  | .apiErr => .ok 0
  | .exn => .error ()

/-- Successive close-to-close deltas: `klines[i].close_price -
klines[i-1].close_price` for `i = 1 .. len-1`. -/
def priceChanges (ks : List Kline) : List ℚ :=
  (ks.tail.zip ks).map (fun p => p.1.close_price - p.2.close_price)

/-- `[change if change > 0 else 0 for change in changes]` -/
def gainsOf (cs : List ℚ) : List ℚ :=
  cs.map (fun c => if 0 < c then c else 0)

/-- `[-change if change < 0 else 0 for change in changes]` -/
def lossesOf (cs : List ℚ) : List ℚ :=
  cs.map (fun c => if c < 0 then -c else 0)

/-- Arithmetic mean of a nonempty list (`np.mean`); only applied to nonempty
lists in this development. -/
def listMean (xs : List ℚ) : ℚ := xs.sum / xs.length

/-- `BinanceClient.calculate_rsi`.  The klines fetch happens inside the
function's own `try`, so an exception there is caught (`except Exception`) and
the sentinel `0.0` returned; an empty kline list also yields `0.0`.  With
exactly one candle the delta list is empty, `np.mean([])` is NaN and the
returned rsi is NaN, modelled as `none`. -/
def calculate_rsi (o : Call (List Kline)) : Option ℚ :=
  match get_klines o with
  | .error _ => some 0
  | .ok ks =>
    if ks.isEmpty then some 0
    else
      let changes := priceChanges ks
      if changes.isEmpty then none
      else
        let avg_gain := listMean (gainsOf changes)
        let avg_loss := listMean (lossesOf changes)
        if avg_loss = 0 then some 100
        else some (100 - 100 / (1 + avg_gain / avg_loss))

/-- Environment for one evaluation of `check_price_conditions`: the outcomes
of its three external fetches (24 hourly klines, current price ticker, and the
15 klines fetched inside `calculate_rsi`). -/
structure PriceEnv where
  klines24 : Call (List Kline)
  ticker : Call ℚ
  rsiKlines : Call (List Kline)
deriving DecidableEq

/-- `AXSStakingBot.check_price_conditions`.  Everything runs inside one
`try/except Exception` returning `False` on any exception; the only statements
that can raise are the two fetches (non-API exceptions) and the average
computation when the kline list is empty (`ZeroDivisionError` from
`sum(prices)/len(prices)`).  `calculate_rsi` catches all its own exceptions.
A NaN rsi makes `rsi < 30` false. -/
def check_price_conditions (env : PriceEnv) : Bool :=
  let body : Except Unit Bool :=
    match get_klines env.klines24 with
    | .error _ => .error ()
    | .ok klines =>
      match get_current_price env.ticker with
      | .error _ => .error ()
      | .ok current_price =>
        let prices := klines.map (·.close_price)
        if prices.isEmpty then .error ()
        else
          let avg_price := listMean prices
          let rsi := calculate_rsi env.rsiKlines
          let price_condition := decide (current_price < avg_price * (95 / 100))
          let rsi_condition := match rsi with
            | some r => decide (r < 30)
            | none => false
          .ok (price_condition && rsi_condition)
  match body with
  | .ok b => b
  | .error _ => false

/-- Observable side effects of the controller, in emission order. -/
inductive Event where
  | logInfo (s : String)
  | logErr (s : String)
  | sendMsg (s : String)
  | sleep (n : ℕ)
  | evalSignal
  | buyStage (amt : ℚ)
  | withdrawStage (amt : ℚ)
  | stakeStage (amt : ℚ)
deriving DecidableEq

/-- Environment for one `place_market_buy` call: the ticker fetch, the symbol
info lookup (resolving to the LOT_SIZE step size), and the order placement. -/
structure BuyEnv where
  ticker : Call ℚ
  symbolInfo : Call ℚ
  orderCall : Call OrderData
deriving DecidableEq

/-- `Decimal.quantize` to a multiple of `step`.  The source uses the default
`ROUND_HALF_EVEN`; modelled as rounding to the nearest multiple (no claim in
this development depends on tie behaviour). -/
def quantizeStep (x step : ℚ) : ℚ := step * round (x / step)

/-- `BinanceClient.place_market_buy`.  The whole body is wrapped in
`except BinanceAPIException` returning `None`; other exceptions propagate.
The second component records whether the quantity division
`float(usdt_amount) / price` was performed. -/
def place_market_buy (usdt_amount : ℚ) (env : BuyEnv) :
    Except Unit (Option OrderData) × Bool :=
  match get_current_price env.ticker with
  | .error _ => (.error (), false)
  | .ok price =>
    if price = 0 then (.ok none, false)
    else
      let quantity := usdt_amount / price
      match env.symbolInfo with
      | .exn => (.error (), true)
      | .apiErr => (.ok none, true)
      | .ok step_size =>
        let _q := quantizeStep quantity step_size
        match env.orderCall with
        | .ok order => (.ok (some order), true)
        | .apiErr => (.ok none, true)
        | .exn => (.error (), true)

/-- `AXSStakingBot.execute_buy`: returns the order only when one was returned
with status `"FILLED"`; an exception is caught, logged and notified; a missing
order or any other status silently yields `None`. -/
def execute_buy (telegram : Bool) (usdt_amount : ℚ) (env : BuyEnv) :
    Option OrderData × List Event :=
  let entry := [Event.buyStage usdt_amount]
  match place_market_buy usdt_amount env with
  | (.error _, _) =>
    (none, entry ++ [Event.logErr "Fehler beim Kauf"]
      ++ (if telegram then [Event.sendMsg "Kaufversuch fehlgeschlagen"] else []))
  | (.ok none, _) => (none, entry)
  | (.ok (some order), _) =>
    if order.status = "FILLED" then
      (some order, entry ++ [Event.logInfo "Kauf ausgefuehrt"]
        ++ (if telegram then [Event.sendMsg "Kauf ausgefuehrt"] else []))
    else (none, entry)

/-- `BinanceClient.withdraw_to_ronin`: `BinanceAPIException` caught, `None`
returned; other exceptions propagate.  `Call.ok none` models the client
returning a falsy value. -/
def withdraw_to_ronin (o : Call (Option WithdrawResult)) :
    Except Unit (Option WithdrawResult) :=
  match o with
  | .ok r => .ok r
  | .apiErr => .ok none
  | .exn => .error ()

/-- `AXSStakingBot.transfer_to_ronin`: on a truthy withdrawal, log, notify and
return its id; on a falsy one silently return `None`; an exception is caught,
logged and notified. -/
def transfer_to_ronin (telegram : Bool) (amount : ℚ)
    (o : Call (Option WithdrawResult)) : Option String × List Event :=
  let entry := [Event.withdrawStage amount]
  match withdraw_to_ronin o with
  | .error _ =>
    (none, entry ++ [Event.logErr "Fehler beim Transfer"]
      ++ (if telegram then [Event.sendMsg "Transfer fehlgeschlagen"] else []))
  | .ok none => (none, entry)
  | .ok (some w) =>
    (some w.id, entry ++ [Event.logInfo "Transfer zu Ronin initiiert"]
      ++ (if telegram then [Event.sendMsg "Transfer zu Ronin initiiert"] else []))

/-- `AXSStakingBot.stake_axs`: on a truthy tx hash, log, notify and return it;
on a falsy one silently return `None`; an exception is caught, logged and
notified.  `Call.ok none` models `ronin.stake_axs` returning a falsy value. -/
def stake_axs (telegram : Bool) (amount : ℚ) (o : Call (Option String)) :
    Option String × List Event :=
  let entry := [Event.stakeStage amount]
  match o with
  | .exn =>
    (none, entry ++ [Event.logErr "Fehler beim Staking"]
      ++ (if telegram then [Event.sendMsg "Staking fehlgeschlagen"] else []))
  | .apiErr =>
    (none, entry ++ [Event.logErr "Fehler beim Staking"]
      ++ (if telegram then [Event.sendMsg "Staking fehlgeschlagen"] else []))
  | .ok none => (none, entry)
  | .ok (some tx) =>
    (some tx, entry ++ [Event.logInfo "Staking erfolgreich"]
      ++ (if telegram then [Event.sendMsg "Staking erfolgreich"] else []))

/-- Environment for one iteration of the main loop: outcomes of every external
interaction plus the two config reads that can raise
(`Decimal(...)` / `int(...)` parse failures). -/
structure IterEnv where
  balance : Call ℚ
  amountRead : Except Unit ℚ
  price : PriceEnv
  buy : BuyEnv
  withdrawal : Call (Option WithdrawResult)
  stakeCall : Call (Option String)
  intervalRead : Except Unit ℕ
deriving DecidableEq

/-- Result of one loop iteration: the emitted events, each stage result, and
whether the body completed without raising to the loop-level handler. -/
structure IterOut where
  events : List Event
  buyRes : Option OrderData
  withdrawRes : Option String
  stakeRes : Option String
  ok : Bool
deriving DecidableEq

/-- The signal check and three-stage pipeline of one iteration (bot.py lines
156-166): evaluate `check_price_conditions`; if true, buy; if the buy returned
an order, wait 10s and withdraw the executed quantity; if the withdrawal
returned an id, wait 900s and stake the executed quantity.  Returns
(events, buy result, withdrawal id, stake tx hash). -/
def pipelineRun (telegram : Bool) (usdt_amount : ℚ) (env : IterEnv) :
    List Event × Option OrderData × Option String × Option String :=
  if check_price_conditions env.price then
    match execute_buy telegram usdt_amount env.buy with
    | (none, evBuy) => (Event.evalSignal :: evBuy, none, none, none)
    | (some order, evBuy) =>
      match transfer_to_ronin telegram order.executedQty env.withdrawal with
      | (none, evW) =>
        (Event.evalSignal :: (evBuy ++ [Event.sleep 10] ++ evW),
          some order, none, none)
      | (some wid, evW) =>
        match stake_axs telegram order.executedQty env.stakeCall with
        | (tx?, evS) =>
          (Event.evalSignal :: (evBuy ++ [Event.sleep 10] ++ evW
              ++ [Event.sleep 900] ++ evS),
            some order, some wid, tx?)
  else ([Event.evalSignal], none, none, none)

/-- The `try` body of one iteration of `AXSStakingBot.run` (`ok := false`
means an exception escaped to the loop-level handler). -/
def iterationBody (telegram : Bool) (env : IterEnv) : IterOut :=
  match get_balance env.balance with
  | .error _ => ⟨[], none, none, none, false⟩
  | .ok usdt_balance =>
    match env.amountRead with
    | .error _ => ⟨[], none, none, none, false⟩
    | .ok usdt_amount =>
      match
        (if usdt_amount ≤ usdt_balance then pipelineRun telegram usdt_amount env
         else ([], none, none, none)) with
      | (evs, buyRes, withdrawRes, stakeRes) =>
        match env.intervalRead with
        | .error _ => ⟨evs, buyRes, withdrawRes, stakeRes, false⟩
        | .ok n => ⟨evs ++ [Event.sleep n], buyRes, withdrawRes, stakeRes, true⟩

/-- One full iteration of the `while self.running` loop, including the
loop-level `except` handler (log, notify, 60 second cooldown sleep). -/
def iteration (telegram : Bool) (env : IterEnv) : IterOut :=
  if (iterationBody telegram env).ok then iterationBody telegram env
  else
    { iterationBody telegram env with
      events := (iterationBody telegram env).events
        ++ [Event.logErr "Fehler im Hauptloop"]
        ++ (if telegram then [Event.sendMsg "Fehler aufgetreten"] else [])
        ++ [Event.sleep 60] }

/-- The poll loop of `AXSStakingBot.run`, fuel-bounded.  `flag i` is the value
of `self.running` observed at the top of iteration `i` (it is only ever
written by `stop`, which sets it to `False`). -/
def runLoop (telegram : Bool) : ℕ → (ℕ → Bool) → (ℕ → IterEnv) → List Event
  | 0, _, _ => []
  | n + 1, flag, envs =>
    if flag 0 then
      (iteration telegram (envs 0)).events
        ++ runLoop telegram n (fun i => flag (i + 1)) (fun i => envs (i + 1))
    else []

/-- The controller state: the single boolean run flag. -/
structure BotState where
  running : Bool
deriving DecidableEq

/-- `AXSStakingBot.stop`: set the run flag to `False`, log, notify. -/
def stop (telegram : Bool) (_s : BotState) : BotState × List Event :=
  (⟨false⟩, [Event.logInfo "Bot gestoppt"]
    ++ (if telegram then [Event.sendMsg "Bot gestoppt"] else []))

/-- The amounts passed to the buy stage, in order of invocation. -/
def buyCalls (evs : List Event) : List ℚ :=
  evs.filterMap (fun e => match e with | .buyStage a => some a | _ => none)

/-- The amounts passed to the withdraw stage, in order of invocation. -/
def withdrawCalls (evs : List Event) : List ℚ :=
  evs.filterMap (fun e => match e with | .withdrawStage a => some a | _ => none)

/-- The amounts passed to the stake stage, in order of invocation. -/
def stakeCalls (evs : List Event) : List ℚ :=
  evs.filterMap (fun e => match e with | .stakeStage a => some a | _ => none)

/-- How many times the signal evaluator was invoked. -/
def evalCalls (evs : List Event) : ℕ := evs.count Event.evalSignal

/-! ### Structural lemmas about the pipeline stages -/

lemma execute_buy_calls (t : Bool) (amt : ℚ) (env : BuyEnv) :
    buyCalls (execute_buy t amt env).2 = [amt] ∧
    withdrawCalls (execute_buy t amt env).2 = [] ∧
    stakeCalls (execute_buy t amt env).2 = [] ∧
    evalCalls (execute_buy t amt env).2 = 0 := by
  unfold execute_buy
  cases t <;> split <;> (try split) <;>
    simp [buyCalls, withdrawCalls, stakeCalls, evalCalls]

lemma execute_buy_status (t : Bool) (amt : ℚ) (env : BuyEnv) (ord : OrderData)
    (h : (execute_buy t amt env).1 = some ord) : ord.status = "FILLED" := by
  unfold execute_buy at h
  rcases hpm : place_market_buy amt env with ⟨res, flag⟩
  rw [hpm] at h
  match res with
  | .error _ => simp at h
  | .ok none => simp at h
  | .ok (some o) =>
    by_cases hs : o.status = "FILLED"
    · simp only [hs, if_true] at h
      simp at h
      rw [← h]
      exact hs
    · simp only [hs, if_false] at h
      simp at h

lemma transfer_to_ronin_calls (t : Bool) (a : ℚ) (o : Call (Option WithdrawResult)) :
    buyCalls (transfer_to_ronin t a o).2 = [] ∧
    withdrawCalls (transfer_to_ronin t a o).2 = [a] ∧
    stakeCalls (transfer_to_ronin t a o).2 = [] ∧
    evalCalls (transfer_to_ronin t a o).2 = 0 := by
  unfold transfer_to_ronin
  cases t <;> split <;>
    simp [buyCalls, withdrawCalls, stakeCalls, evalCalls]

lemma stake_axs_calls (t : Bool) (a : ℚ) (o : Call (Option String)) :
    buyCalls (stake_axs t a o).2 = [] ∧
    withdrawCalls (stake_axs t a o).2 = [] ∧
    stakeCalls (stake_axs t a o).2 = [a] ∧
    evalCalls (stake_axs t a o).2 = 0 := by
  unfold stake_axs
  cases t <;> split <;>
    simp [buyCalls, withdrawCalls, stakeCalls, evalCalls]

lemma buyCalls_append (l₁ l₂ : List Event) :
    buyCalls (l₁ ++ l₂) = buyCalls l₁ ++ buyCalls l₂ := by
  simp [buyCalls]

lemma withdrawCalls_append (l₁ l₂ : List Event) :
    withdrawCalls (l₁ ++ l₂) = withdrawCalls l₁ ++ withdrawCalls l₂ := by
  simp [withdrawCalls]

lemma stakeCalls_append (l₁ l₂ : List Event) :
    stakeCalls (l₁ ++ l₂) = stakeCalls l₁ ++ stakeCalls l₂ := by
  simp [stakeCalls]

lemma evalCalls_append (l₁ l₂ : List Event) :
    evalCalls (l₁ ++ l₂) = evalCalls l₁ + evalCalls l₂ := by
  simp [evalCalls, List.count_append]

lemma withdrawCalls_cons_evalSignal (l : List Event) :
    withdrawCalls (Event.evalSignal :: l) = withdrawCalls l := rfl

lemma stakeCalls_cons_evalSignal (l : List Event) :
    stakeCalls (Event.evalSignal :: l) = stakeCalls l := rfl

lemma buyCalls_cons_evalSignal (l : List Event) :
    buyCalls (Event.evalSignal :: l) = buyCalls l := rfl

/-- Case analysis of one pipeline execution: either the buy stage failed (or
the signal was false) and no withdrawal or stake was attempted; or the buy
succeeded with a FILLED order and the withdrawal failed, the withdraw stage
having been called once with the executed quantity and the stake stage never;
or all three stages ran, withdraw and stake each called once with the
executed quantity. -/
lemma pipelineRun_cases (t : Bool) (amt : ℚ) (env : IterEnv) :
    ((pipelineRun t amt env).2.1 = none ∧ (pipelineRun t amt env).2.2.1 = none
      ∧ withdrawCalls (pipelineRun t amt env).1 = []
      ∧ stakeCalls (pipelineRun t amt env).1 = [])
  ∨ (∃ ord, (pipelineRun t amt env).2.1 = some ord ∧ ord.status = "FILLED"
      ∧ (pipelineRun t amt env).2.2.1 = none
      ∧ withdrawCalls (pipelineRun t amt env).1 = [ord.executedQty]
      ∧ stakeCalls (pipelineRun t amt env).1 = [])
  ∨ (∃ ord wid, (pipelineRun t amt env).2.1 = some ord ∧ ord.status = "FILLED"
      ∧ (pipelineRun t amt env).2.2.1 = some wid
      ∧ withdrawCalls (pipelineRun t amt env).1 = [ord.executedQty]
      ∧ stakeCalls (pipelineRun t amt env).1 = [ord.executedQty]) := by
  unfold pipelineRun
  by_cases hc : check_price_conditions env.price
  · rw [if_pos hc]
    rcases hb : execute_buy t amt env.buy with ⟨ord?, evBuy⟩
    have hbc := execute_buy_calls t amt env.buy
    rw [hb] at hbc
    obtain ⟨hb1, hb2, hb3, hb4⟩ := hbc
    cases ord? with
    | none =>
      left
      refine ⟨rfl, rfl, ?_, ?_⟩
      · rw [withdrawCalls_cons_evalSignal]; exact hb2
      · rw [stakeCalls_cons_evalSignal]; exact hb3
    | some ord =>
      have hst : ord.status = "FILLED" := by
        apply execute_buy_status t amt env.buy
        rw [hb]
      dsimp only
      rcases hw : transfer_to_ronin t ord.executedQty env.withdrawal with ⟨wid?, evW⟩
      have hwc := transfer_to_ronin_calls t ord.executedQty env.withdrawal
      rw [hw] at hwc
      obtain ⟨hw1, hw2, hw3, hw4⟩ := hwc
      cases wid? with
      | none =>
        right; left
        refine ⟨ord, rfl, hst, rfl, ?_, ?_⟩
        · rw [withdrawCalls_cons_evalSignal, withdrawCalls_append,
            withdrawCalls_append, hb2, hw2]
          rfl
        · rw [stakeCalls_cons_evalSignal, stakeCalls_append,
            stakeCalls_append, hb3, hw3]
          rfl
      | some wid =>
        dsimp only
        rcases hs : stake_axs t ord.executedQty env.stakeCall with ⟨tx?, evS⟩
        have hsc := stake_axs_calls t ord.executedQty env.stakeCall
        rw [hs] at hsc
        obtain ⟨hs1, hs2, hs3, hs4⟩ := hsc
        right; right
        refine ⟨ord, wid, rfl, hst, rfl, ?_, ?_⟩
        · rw [withdrawCalls_cons_evalSignal, withdrawCalls_append,
            withdrawCalls_append, withdrawCalls_append, withdrawCalls_append,
            hb2, hw2, hs2]
          rfl
        · rw [stakeCalls_cons_evalSignal, stakeCalls_append, stakeCalls_append,
            stakeCalls_append, stakeCalls_append, hb3, hw3, hs3]
          rfl
  · left
    rw [if_neg hc]
    exact ⟨rfl, rfl, rfl, rfl⟩

lemma withdrawCalls_sleep_single (n : ℕ) : withdrawCalls [Event.sleep n] = [] := rfl

lemma stakeCalls_sleep_single (n : ℕ) : stakeCalls [Event.sleep n] = [] := rfl

lemma buyCalls_sleep_single (n : ℕ) : buyCalls [Event.sleep n] = [] := rfl

lemma evalCalls_sleep_single (n : ℕ) : evalCalls [Event.sleep n] = 0 := rfl

lemma withdrawCalls_logErr_single (s : String) : withdrawCalls [Event.logErr s] = [] := rfl

lemma stakeCalls_logErr_single (s : String) : stakeCalls [Event.logErr s] = [] := rfl

lemma buyCalls_logErr_single (s : String) : buyCalls [Event.logErr s] = [] := rfl

lemma evalCalls_logErr_single (s : String) : evalCalls [Event.logErr s] = 0 := rfl

lemma withdrawCalls_ite_sendMsg (t : Bool) (s : String) :
    withdrawCalls (if t = true then [Event.sendMsg s] else []) = [] := by
  cases t <;> rfl

lemma stakeCalls_ite_sendMsg (t : Bool) (s : String) :
    stakeCalls (if t = true then [Event.sendMsg s] else []) = [] := by
  cases t <;> rfl

lemma buyCalls_ite_sendMsg (t : Bool) (s : String) :
    buyCalls (if t = true then [Event.sendMsg s] else []) = [] := by
  cases t <;> rfl

lemma evalCalls_ite_sendMsg (t : Bool) (s : String) :
    evalCalls (if t = true then [Event.sendMsg s] else []) = 0 := by
  cases t <;> rfl

/-- Same case analysis for the whole `try` body of one loop iteration. -/
lemma iterationBody_cases (t : Bool) (env : IterEnv) :
    ((iterationBody t env).buyRes = none ∧ (iterationBody t env).withdrawRes = none
      ∧ withdrawCalls (iterationBody t env).events = []
      ∧ stakeCalls (iterationBody t env).events = [])
  ∨ (∃ ord, (iterationBody t env).buyRes = some ord ∧ ord.status = "FILLED"
      ∧ (iterationBody t env).withdrawRes = none
      ∧ withdrawCalls (iterationBody t env).events = [ord.executedQty]
      ∧ stakeCalls (iterationBody t env).events = [])
  ∨ (∃ ord wid, (iterationBody t env).buyRes = some ord ∧ ord.status = "FILLED"
      ∧ (iterationBody t env).withdrawRes = some wid
      ∧ withdrawCalls (iterationBody t env).events = [ord.executedQty]
      ∧ stakeCalls (iterationBody t env).events = [ord.executedQty]) := by
  unfold iterationBody
  cases hgb : get_balance env.balance with
  | error e => left; exact ⟨rfl, rfl, rfl, rfl⟩
  | ok bal =>
    cases ha : env.amountRead with
    | error e => left; exact ⟨rfl, rfl, rfl, rfl⟩
    | ok amt =>
      dsimp only
      by_cases hle : amt ≤ bal
      · rw [if_pos hle]
        rcases hp : pipelineRun t amt env with ⟨evs, b, w, sk⟩
        have hpc := pipelineRun_cases t amt env
        rw [hp] at hpc
        dsimp only at hpc
        cases hi : env.intervalRead with
        | error e =>
          rcases hpc with ⟨h1, h2, h3, h4⟩ | ⟨ord, h1, h2, h3, h4, h5⟩ |
              ⟨ord, wid, h1, h2, h3, h4, h5⟩
          · left; exact ⟨h1, h2, h3, h4⟩
          · right; left; exact ⟨ord, h1, h2, h3, h4, h5⟩
          · right; right; exact ⟨ord, wid, h1, h2, h3, h4, h5⟩
        | ok n =>
          rcases hpc with ⟨h1, h2, h3, h4⟩ | ⟨ord, h1, h2, h3, h4, h5⟩ |
              ⟨ord, wid, h1, h2, h3, h4, h5⟩
          · left
            refine ⟨h1, h2, ?_, ?_⟩
            · rw [withdrawCalls_append, h3, withdrawCalls_sleep_single]; simp
            · rw [stakeCalls_append, h4, stakeCalls_sleep_single]; simp
          · right; left
            refine ⟨ord, h1, h2, h3, ?_, ?_⟩
            · rw [withdrawCalls_append, h4, withdrawCalls_sleep_single,
                List.append_nil]
            · rw [stakeCalls_append, h5, stakeCalls_sleep_single]; simp
          · right; right
            refine ⟨ord, wid, h1, h2, h3, ?_, ?_⟩
            · rw [withdrawCalls_append, h4, withdrawCalls_sleep_single,
                List.append_nil]
            · rw [stakeCalls_append, h5, stakeCalls_sleep_single,
                List.append_nil]
      · rw [if_neg hle]
        cases hi : env.intervalRead with
        | error e => left; exact ⟨rfl, rfl, rfl, rfl⟩
        | ok n => left; exact ⟨rfl, rfl, rfl, rfl⟩

/-- The loop-level exception handler changes no stage result and appends only
log/notify/sleep events. -/
lemma iteration_calls (t : Bool) (env : IterEnv) :
    (iteration t env).buyRes = (iterationBody t env).buyRes
  ∧ (iteration t env).withdrawRes = (iterationBody t env).withdrawRes
  ∧ (iteration t env).stakeRes = (iterationBody t env).stakeRes
  ∧ withdrawCalls (iteration t env).events = withdrawCalls (iterationBody t env).events
  ∧ stakeCalls (iteration t env).events = stakeCalls (iterationBody t env).events
  ∧ buyCalls (iteration t env).events = buyCalls (iterationBody t env).events
  ∧ evalCalls (iteration t env).events = evalCalls (iterationBody t env).events := by
  unfold iteration
  by_cases h : (iterationBody t env).ok
  · rw [if_pos h]
    exact ⟨rfl, rfl, rfl, rfl, rfl, rfl, rfl⟩
  · rw [if_neg h]
    refine ⟨rfl, rfl, rfl, ?_, ?_, ?_, ?_⟩ <;>
      simp only [List.append_assoc, withdrawCalls_append, stakeCalls_append,
        buyCalls_append, evalCalls_append, withdrawCalls_logErr_single,
        stakeCalls_logErr_single, buyCalls_logErr_single, evalCalls_logErr_single,
        withdrawCalls_ite_sendMsg, stakeCalls_ite_sendMsg, buyCalls_ite_sendMsg,
        evalCalls_ite_sendMsg, withdrawCalls_sleep_single, stakeCalls_sleep_single,
        buyCalls_sleep_single, evalCalls_sleep_single,
        List.append_nil, Nat.add_zero]

/-- Case analysis of one full loop iteration (handler included). -/
lemma iteration_cases (t : Bool) (env : IterEnv) :
    ((iteration t env).buyRes = none ∧ (iteration t env).withdrawRes = none
      ∧ withdrawCalls (iteration t env).events = []
      ∧ stakeCalls (iteration t env).events = [])
  ∨ (∃ ord, (iteration t env).buyRes = some ord ∧ ord.status = "FILLED"
      ∧ (iteration t env).withdrawRes = none
      ∧ withdrawCalls (iteration t env).events = [ord.executedQty]
      ∧ stakeCalls (iteration t env).events = [])
  ∨ (∃ ord wid, (iteration t env).buyRes = some ord ∧ ord.status = "FILLED"
      ∧ (iteration t env).withdrawRes = some wid
      ∧ withdrawCalls (iteration t env).events = [ord.executedQty]
      ∧ stakeCalls (iteration t env).events = [ord.executedQty]) := by
  obtain ⟨e1, e2, _, e4, e5, _, _⟩ := iteration_calls t env
  rcases iterationBody_cases t env with ⟨h1, h2, h3, h4⟩ |
      ⟨ord, h1, h2, h3, h4, h5⟩ | ⟨ord, wid, h1, h2, h3, h4, h5⟩
  · left; rw [e1, e2, e4, e5]; exact ⟨h1, h2, h3, h4⟩
  · right; left; rw [e1, e2, e4, e5]; exact ⟨ord, h1, h2, h3, h4, h5⟩
  · right; right; rw [e1, e2, e4, e5]; exact ⟨ord, wid, h1, h2, h3, h4, h5⟩

/-- A body that completed normally ends with the poll-interval sleep. -/
lemma iterationBody_ok_events (t : Bool) (env : IterEnv)
    (h : (iterationBody t env).ok = true) :
    ∃ evs n, (iterationBody t env).events = evs ++ [Event.sleep n] := by
  unfold iterationBody at h ⊢
  cases hgb : get_balance env.balance with
  | error e => rw [hgb] at h; simp at h
  | ok bal =>
    rw [hgb] at h
    cases ha : env.amountRead with
    | error e => rw [ha] at h; simp at h
    | ok amt =>
      rw [ha] at h
      dsimp only at h ⊢
      rcases hif : (if amt ≤ bal then pipelineRun t amt env
          else ([], none, none, none)) with ⟨evs, b, w, sk⟩
      cases hi : env.intervalRead with
      | error e => rw [hi] at h; simp at h
      | ok n => exact ⟨evs, n, rfl⟩

/-- Every iteration emits at least one event (it always ends in a sleep). -/
lemma iteration_events_ne_nil (t : Bool) (env : IterEnv) :
    (iteration t env).events ≠ [] := by
  unfold iteration
  by_cases h : (iterationBody t env).ok
  · rw [if_pos h]
    obtain ⟨evs, n, he⟩ := iterationBody_ok_events t env h
    rw [he]
    simp
  · rw [if_neg h]
    dsimp only
    simp

/-- Sample data used in concrete evaluations below. -/
def flatKline (c : ℚ) : Kline := ⟨0, c, c, c, c, 0, 0⟩

/-- 24 hourly candles all closing at 100. -/
def sampleKlines24 : List Kline := List.replicate 24 (flatKline 100)

/-- Two strictly decreasing closes, so the oscillator is 0 (the code places no
lower bound on how many candles the exchange returns). -/
def sampleRsiKlines : List Kline := [flatKline 2, flatKline 1]

/-- A snapshot satisfying both buy conditions: price 90 is more than 5% below
the mean close 100, and the oscillator of a strictly falling series is 0. -/
def samplePriceEnv : PriceEnv := ⟨.ok sampleKlines24, .ok 90, .ok sampleRsiKlines⟩

/-- A buy environment whose order fills. -/
def sampleBuyEnv : BuyEnv := ⟨.ok 90, .ok 1, .ok ⟨"FILLED", 5⟩⟩

/-- A buy environment whose order comes back with a non-FILLED status. -/
def sampleBuyEnvNew : BuyEnv := ⟨.ok 90, .ok 1, .ok ⟨"NEW", 5⟩⟩

/-- An iteration in which every stage succeeds. -/
def sampleIterEnv : IterEnv :=
  ⟨.ok 100, .ok 10, samplePriceEnv, sampleBuyEnv, .ok (some ⟨"w1"⟩),
    .ok (some "tx"), .ok 300⟩

/-- An iteration whose balance fetch raises a non-API exception. -/
def sampleErrEnv : IterEnv :=
  ⟨.exn, .ok 10, samplePriceEnv, sampleBuyEnv, .ok (some ⟨"w1"⟩),
    .ok (some "tx"), .ok 300⟩

/-- An iteration whose balance fetch raises a `BinanceAPIException`. -/
def sampleApiErrEnv : IterEnv :=
  ⟨.apiErr, .ok 10, samplePriceEnv, sampleBuyEnv, .ok (some ⟨"w1"⟩),
    .ok (some "tx"), .ok 300⟩

/-- An iteration whose buy order comes back non-FILLED. -/
def sampleIterEnvNew : IterEnv :=
  ⟨.ok 100, .ok 10, samplePriceEnv, sampleBuyEnvNew, .ok (some ⟨"w1"⟩),
    .ok (some "tx"), .ok 300⟩

/-! ### Evaluation lemmas -/

/-- When both fetches in `check_price_conditions` deliver a value (the kline
fetch a nonempty list, the ticker fetch resolving to price `p`), the decision
is the conjunction of the price condition and the oscillator condition. -/
lemma check_price_conditions_eq (env : PriceEnv) (ks : List Kline) (p : ℚ)
    (hk : env.klines24 = Call.ok ks) (hne : ks ≠ [])
    (hp : get_current_price env.ticker = Except.ok p) :
    check_price_conditions env =
      (decide (p < listMean (ks.map Kline.close_price) * (95 / 100)) &&
        match calculate_rsi env.rsiKlines with
        | some r => decide (r < 30)
        | none => false) := by
  unfold check_price_conditions
  rw [hk, hp]
  simp only [get_klines]
  rw [if_neg (by simp [hne])]

lemma listMean_sampleKlines24 :
    listMean (sampleKlines24.map Kline.close_price) = 100 := by
  simp [sampleKlines24, listMean, flatKline, List.map_replicate, List.sum_replicate]
  norm_num

lemma calculate_rsi_sampleRsi : calculate_rsi (Call.ok sampleRsiKlines) = some 0 := by
  simp only [calculate_rsi, get_klines, sampleRsiKlines, priceChanges, gainsOf,
    lossesOf, listMean, flatKline]
  norm_num

lemma check_price_conditions_samplePriceEnv :
    check_price_conditions samplePriceEnv = true := by
  rw [check_price_conditions_eq samplePriceEnv sampleKlines24 90 rfl
    (by simp [sampleKlines24]) rfl]
  have hr : calculate_rsi samplePriceEnv.rsiKlines = some 0 := calculate_rsi_sampleRsi
  rw [hr, listMean_sampleKlines24]
  norm_num

lemma execute_buy_sample :
    execute_buy true 10 sampleBuyEnv =
      (some ⟨"FILLED", 5⟩,
        [Event.buyStage 10, Event.logInfo "Kauf ausgefuehrt",
          Event.sendMsg "Kauf ausgefuehrt"]) := by
  have hpm : place_market_buy 10 sampleBuyEnv = (Except.ok (some ⟨"FILLED", 5⟩), true) := by
    unfold place_market_buy sampleBuyEnv
    simp only [get_current_price]
    rw [if_neg (by norm_num : ¬(90 : ℚ) = 0)]
  unfold execute_buy
  rw [hpm]
  rfl

lemma pipelineRun_sample :
    pipelineRun true 10 sampleIterEnv =
      ([Event.evalSignal, Event.buyStage 10, Event.logInfo "Kauf ausgefuehrt",
          Event.sendMsg "Kauf ausgefuehrt", Event.sleep 10, Event.withdrawStage 5,
          Event.logInfo "Transfer zu Ronin initiiert",
          Event.sendMsg "Transfer zu Ronin initiiert", Event.sleep 900,
          Event.stakeStage 5, Event.logInfo "Staking erfolgreich",
          Event.sendMsg "Staking erfolgreich"],
        some ⟨"FILLED", 5⟩, some "w1", some "tx") := by
  unfold pipelineRun sampleIterEnv
  dsimp only
  rw [check_price_conditions_samplePriceEnv, if_pos rfl, execute_buy_sample]
  rfl

lemma iteration_sample :
    iteration true sampleIterEnv =
      ⟨[Event.evalSignal, Event.buyStage 10, Event.logInfo "Kauf ausgefuehrt",
          Event.sendMsg "Kauf ausgefuehrt", Event.sleep 10, Event.withdrawStage 5,
          Event.logInfo "Transfer zu Ronin initiiert",
          Event.sendMsg "Transfer zu Ronin initiiert", Event.sleep 900,
          Event.stakeStage 5, Event.logInfo "Staking erfolgreich",
          Event.sendMsg "Staking erfolgreich", Event.sleep 300],
        some ⟨"FILLED", 5⟩, some "w1", some "tx", true⟩ := by
  have hbody : iterationBody true sampleIterEnv =
      ⟨[Event.evalSignal, Event.buyStage 10, Event.logInfo "Kauf ausgefuehrt",
          Event.sendMsg "Kauf ausgefuehrt", Event.sleep 10, Event.withdrawStage 5,
          Event.logInfo "Transfer zu Ronin initiiert",
          Event.sendMsg "Transfer zu Ronin initiiert", Event.sleep 900,
          Event.stakeStage 5, Event.logInfo "Staking erfolgreich",
          Event.sendMsg "Staking erfolgreich", Event.sleep 300],
        some ⟨"FILLED", 5⟩, some "w1", some "tx", true⟩ := by
    unfold iterationBody
    have hgb : get_balance sampleIterEnv.balance = Except.ok 100 := rfl
    rw [hgb]
    have ha : sampleIterEnv.amountRead = Except.ok 10 := rfl
    rw [ha]
    dsimp only
    rw [if_pos (by norm_num : (10 : ℚ) ≤ 100), pipelineRun_sample]
    have hi : sampleIterEnv.intervalRead = Except.ok 300 := rfl
    rw [hi]
    rfl
  unfold iteration
  rw [hbody]
  rfl

lemma iteration_sampleErr :
    iteration true sampleErrEnv =
      ⟨[Event.logErr "Fehler im Hauptloop", Event.sendMsg "Fehler aufgetreten",
          Event.sleep 60], none, none, none, false⟩ := by
  have hbody : iterationBody true sampleErrEnv = ⟨[], none, none, none, false⟩ := by
    unfold iterationBody
    have hgb : get_balance sampleErrEnv.balance = Except.error () := rfl
    rw [hgb]
  unfold iteration
  rw [hbody]
  rfl

/-! ### The claims -/

/-- C1: the evaluator is claimed to be fail-closed — any failure of the candle
fetch, current-price fetch or oscillator computation should yield a false
decision.  The code violates this: failing client calls return sentinel values
(`0.0`) rather than raising.  With all 24 closes at 100 and current price 90,
an oscillator computation that raises returns the sentinel `0.0`, which counts
as oversold (`0 < 30`), and the decision is true.  Likewise, a failed
current-price fetch returns the sentinel price `0.0`, which trivially passes
`price < avg * 0.95`, and with a genuinely oversold oscillator the decision is
again true. -/
theorem check_price_conditions_fail_open :
    calculate_rsi Call.exn = some 0
  ∧ check_price_conditions ⟨Call.ok sampleKlines24, Call.ok 90, Call.exn⟩ = true
  ∧ get_current_price Call.apiErr = Except.ok 0
  ∧ check_price_conditions ⟨Call.ok sampleKlines24, Call.apiErr,
      Call.ok sampleRsiKlines⟩ = true := by
  refine ⟨rfl, ?_, rfl, ?_⟩
  · rw [check_price_conditions_eq ⟨Call.ok sampleKlines24, Call.ok 90, Call.exn⟩
      sampleKlines24 90 rfl (by simp [sampleKlines24]) rfl]
    have hr : calculate_rsi (Call.exn : Call (List Kline)) = some 0 := rfl
    rw [hr, listMean_sampleKlines24]
    norm_num
  · rw [check_price_conditions_eq ⟨Call.ok sampleKlines24, Call.apiErr,
      Call.ok sampleRsiKlines⟩ sampleKlines24 0 rfl (by simp [sampleKlines24]) rfl]
    have hr : calculate_rsi (Call.ok sampleRsiKlines) = some 0 := calculate_rsi_sampleRsi
    rw [hr, listMean_sampleKlines24]
    norm_num

/-- C8: `stop` is idempotent on the controller state — it always leaves the
run flag false, stopping an already-stopped controller changes nothing, and a
repeated call emits exactly the same single log/notification sequence as the
first (so ordering is preserved and each call notifies at most once). -/
theorem stop_idempotent (t : Bool) (s : BotState) :
    (stop t (stop t s).1).1 = (stop t s).1
  ∧ (stop t ⟨false⟩).1 = (⟨false⟩ : BotState)
  ∧ (stop t s).1.running = false
  ∧ (stop t (stop t s).1).2 = (stop t s).2
  ∧ (stop t s).2.count (Event.sendMsg "Bot gestoppt") = (if t then 1 else 0) := by
  refine ⟨rfl, rfl, rfl, rfl, ?_⟩
  cases t <;> simp [stop]

/-- C9: if the current-price fetch yields no usable price (the sentinel `0.0`
after an API error, or a genuine zero price), `place_market_buy` returns
`None` before computing the quantity: the division of the quote amount by the
price is never performed (second component false). -/
theorem place_market_buy_zero_price (amt : ℚ) (env : BuyEnv)
    (h : env.ticker = Call.ok 0 ∨ env.ticker = Call.apiErr) :
    place_market_buy amt env = (Except.ok none, false) := by
  unfold place_market_buy
  rcases h with h | h <;> rw [h] <;> simp [get_current_price]

/-- Witness for C9 at a concrete environment: the ticker fetch hit an API
error, so the sentinel price is 0 and no division happens. -/
theorem place_market_buy_zero_price_witness :
    place_market_buy 10 ⟨Call.apiErr, Call.ok 1, Call.ok ⟨"FILLED", 5⟩⟩ =
      (Except.ok none, false) :=
  place_market_buy_zero_price 10 ⟨Call.apiErr, Call.ok 1, Call.ok ⟨"FILLED", 5⟩⟩
    (Or.inr rfl)

/-- C3: when the snapshot is fetched successfully (24 candles, a ticker
price, and a computed oscillator value), the decision is true iff the price is
strictly below 95% of the arithmetic mean of the 24 closes and the oscillator
is strictly below 30. -/
theorem decision_iff (env : PriceEnv) (ks : List Kline) (p r : ℚ)
    (hk : env.klines24 = Call.ok ks) (hlen : ks.length = 24)
    (hp : env.ticker = Call.ok p)
    (hr : calculate_rsi env.rsiKlines = some r) :
    (check_price_conditions env = true ↔
      (p < ((ks.map Kline.close_price).sum / 24) * (95 / 100) ∧ r < 30)) := by
  have hne : ks ≠ [] := by
    intro h
    rw [h] at hlen
    simp at hlen
  have hp2 : get_current_price env.ticker = Except.ok p := by rw [hp]; rfl
  rw [check_price_conditions_eq env ks p hk hne hp2, hr]
  have hl : listMean (ks.map Kline.close_price) =
      (ks.map Kline.close_price).sum / 24 := by
    rw [listMean, List.length_map, hlen]
    norm_num
  rw [hl]
  simp

/-- Witness for C3: at the sample snapshot (all closes 100, price 90,
oscillator 0) both conditions hold, so the decision is true. -/
theorem decision_iff_witness : check_price_conditions samplePriceEnv = true := by
  apply (decision_iff samplePriceEnv sampleKlines24 90 0 rfl
    (by simp [sampleKlines24]) rfl calculate_rsi_sampleRsi).mpr
  constructor
  · have hs : (sampleKlines24.map Kline.close_price).sum = 2400 := by
      simp [sampleKlines24, flatKline, List.map_replicate, List.sum_replicate]
      norm_num
    rw [hs]
    norm_num
  · norm_num

/-- C2: the withdraw stage is invoked only after the buy stage returned a
FILLED order, the stake stage only after the withdraw stage returned an id; a
stage returning none leaves the later stages uninvoked, and the polling loop
simply continues with the next iteration. -/
theorem pipeline_monotonicity (t : Bool) (env : IterEnv) :
    (withdrawCalls (iteration t env).events ≠ [] →
      ∃ ord, (iteration t env).buyRes = some ord ∧ ord.status = "FILLED")
  ∧ (stakeCalls (iteration t env).events ≠ [] →
      ∃ wid, (iteration t env).withdrawRes = some wid)
  ∧ ((iteration t env).buyRes = none →
      withdrawCalls (iteration t env).events = []
        ∧ stakeCalls (iteration t env).events = [])
  ∧ ((iteration t env).withdrawRes = none →
      stakeCalls (iteration t env).events = [])
  ∧ (∀ n flag envs, flag 0 = true →
      runLoop t (n + 1) flag envs =
        (iteration t (envs 0)).events
          ++ runLoop t n (fun i => flag (i + 1)) (fun i => envs (i + 1))) := by
  refine ⟨?_, ?_, ?_, ?_, ?_⟩
  · intro h
    rcases iteration_cases t env with ⟨_, _, wc, _⟩ | ⟨ord, hb, hs, _, _, _⟩ |
        ⟨ord, wid, hb, hs, _, _, _⟩
    · exact absurd wc h
    · exact ⟨ord, hb, hs⟩
    · exact ⟨ord, hb, hs⟩
  · intro h
    rcases iteration_cases t env with ⟨_, _, _, sc⟩ | ⟨_, _, _, _, _, sc⟩ |
        ⟨ord, wid, _, _, hw, _, _⟩
    · exact absurd sc h
    · exact absurd sc h
    · exact ⟨wid, hw⟩
  · intro h
    rcases iteration_cases t env with ⟨_, _, wc, sc⟩ | ⟨ord, hb, _, _, _, _⟩ |
        ⟨ord, wid, hb, _, _, _, _⟩
    · exact ⟨wc, sc⟩
    · rw [h] at hb; cases hb
    · rw [h] at hb; cases hb
  · intro h
    rcases iteration_cases t env with ⟨_, _, _, sc⟩ | ⟨_, _, _, _, _, sc⟩ |
        ⟨ord, wid, _, _, hw, _, _⟩
    · exact sc
    · exact sc
    · rw [h] at hw; cases hw
  · intro n flag envs hf
    rw [runLoop, hf]
    simp

/-- Witness for C2 at the all-success environment: the withdraw stage was
invoked, and indeed the buy stage had returned a FILLED order. -/
theorem pipeline_monotonicity_witness :
    withdrawCalls (iteration true sampleIterEnv).events ≠ []
  ∧ ∃ ord, (iteration true sampleIterEnv).buyRes = some ord
      ∧ ord.status = "FILLED" := by
  have hne : withdrawCalls (iteration true sampleIterEnv).events ≠ [] := by
    rw [iteration_sample]
    simp [withdrawCalls]
  exact ⟨hne, (pipeline_monotonicity true sampleIterEnv).1 hne⟩

/-- C7: in a run whose buy stage succeeds, the withdraw stage is invoked with
exactly the executed quantity of the returned order, and any stake-stage
invocation passes that same quantity (never the configured quote amount). -/
theorem pipeline_amounts (t : Bool) (env : IterEnv) (ord : OrderData)
    (h : (iteration t env).buyRes = some ord) :
    withdrawCalls (iteration t env).events = [ord.executedQty]
  ∧ ∀ a ∈ stakeCalls (iteration t env).events, a = ord.executedQty := by
  rcases iteration_cases t env with ⟨hb, _, _, _⟩ | ⟨ord2, hb, _, _, wc, sc⟩ |
      ⟨ord2, wid, hb, _, _, wc, sc⟩
  · rw [h] at hb; cases hb
  · rw [h] at hb
    injection hb with he
    subst he
    exact ⟨wc, by simp [sc]⟩
  · rw [h] at hb
    injection hb with he
    subst he
    exact ⟨wc, by simp [sc]⟩

/-- Witness for C7 at the all-success environment: the buy filled with
executed quantity 5 and the withdraw stage was passed exactly 5 (not the
configured 10 USDT). -/
theorem pipeline_amounts_witness :
    withdrawCalls (iteration true sampleIterEnv).events = [5] := by
  have h : (iteration true sampleIterEnv).buyRes = some ⟨"FILLED", 5⟩ := by
    rw [iteration_sample]
  exact (pipeline_amounts true sampleIterEnv ⟨"FILLED", 5⟩ h).1

/-- C4: an exception escaping the body of a poll-loop iteration is caught at
the loop level — the iteration ends with the error log, the error
notification (when Telegram is enabled) and the fixed 60-second cooldown
sleep; the loop then recurses into the next iteration whenever the run flag
is still true, and it terminates exactly when the run flag observed at the
top of the iteration is false (which only `stop` makes happen). -/
theorem loop_error_containment (t : Bool) (env : IterEnv)
    (h : (iterationBody t env).ok = false) :
    (iteration t env).events = (iterationBody t env).events
      ++ [Event.logErr "Fehler im Hauptloop"]
      ++ (if t then [Event.sendMsg "Fehler aufgetreten"] else [])
      ++ [Event.sleep 60]
  ∧ (∀ n flag envs, flag 0 = true →
      runLoop t (n + 1) flag envs =
        (iteration t (envs 0)).events
          ++ runLoop t n (fun i => flag (i + 1)) (fun i => envs (i + 1)))
  ∧ (∀ n (flag : ℕ → Bool) envs,
      (runLoop t (n + 1) flag envs = [] ↔ flag 0 = false)) := by
  refine ⟨?_, ?_, ?_⟩
  · unfold iteration
    rw [if_neg (by rw [h]; exact Bool.false_ne_true)]
  · intro n flag envs hf
    rw [runLoop, hf]
    simp
  · intro n flag envs
    constructor
    · intro hnil
      cases hf : flag 0 with
      | false => rfl
      | true =>
        rw [runLoop, hf] at hnil
        simp at hnil
        exact absurd hnil.1 (iteration_events_ne_nil t (envs 0))
    · intro hf
      rw [runLoop, hf]
      simp

/-- Witness for C4: with the balance fetch raising, the iteration consists of
exactly the error log, the error notification and the 60-second cooldown. -/
theorem loop_error_containment_witness :
    (iteration true sampleErrEnv).events =
      [Event.logErr "Fehler im Hauptloop", Event.sendMsg "Fehler aufgetreten",
        Event.sleep 60] := by
  have h : (iterationBody true sampleErrEnv).ok = false := by
    have hgb : get_balance sampleErrEnv.balance = Except.error () := rfl
    unfold iterationBody
    rw [hgb]
  have hb : (iterationBody true sampleErrEnv).events = [] := by
    have hgb : get_balance sampleErrEnv.balance = Except.error () := rfl
    unfold iterationBody
    rw [hgb]
  rw [(loop_error_containment true sampleErrEnv h).1, hb]
  rfl

/-- C5 counterexample: an order returned with status `"NEW"` makes the buy
stage fail, but — contrary to the claim — the stage neither logs an error nor
sends a failure notification: its trace is the bare stage entry. -/
theorem execute_buy_silent_failure :
    (execute_buy true 10 sampleBuyEnvNew).1 = none
  ∧ (execute_buy true 10 sampleBuyEnvNew).2 = [Event.buyStage 10]
  ∧ Event.logErr "Fehler beim Kauf" ∉ (execute_buy true 10 sampleBuyEnvNew).2
  ∧ Event.sendMsg "Kaufversuch fehlgeschlagen" ∉
      (execute_buy true 10 sampleBuyEnvNew).2 := by
  have hpm : place_market_buy 10 sampleBuyEnvNew = (Except.ok (some ⟨"NEW", 5⟩), true) := by
    unfold place_market_buy sampleBuyEnvNew
    simp only [get_current_price]
    rw [if_neg (by norm_num : ¬(90 : ℚ) = 0)]
  have he : execute_buy true 10 sampleBuyEnvNew = (none, [Event.buyStage 10]) := by
    unfold execute_buy
    rw [hpm]
    dsimp only
    rw [if_neg (by simp : ¬("NEW" : String) = "FILLED")]
  rw [he]
  refine ⟨rfl, rfl, by simp, by simp⟩

/-- C5 (amended): a failing buy stage always returns `None` and the pipeline
never reaches the withdraw stage; but only the exception case logs and sends
a failure notification — the no-order and wrong-status cases fail silently. -/
theorem execute_buy_failure_handling (t : Bool) (amt : ℚ) (env : BuyEnv)
    (ienv : IterEnv) :
    ((place_market_buy amt env).1 = Except.error () →
      execute_buy t amt env =
        (none, [Event.buyStage amt, Event.logErr "Fehler beim Kauf"]
          ++ (if t then [Event.sendMsg "Kaufversuch fehlgeschlagen"] else [])))
  ∧ ((place_market_buy amt env).1 = Except.ok none →
      execute_buy t amt env = (none, [Event.buyStage amt]))
  ∧ (∀ ord, (place_market_buy amt env).1 = Except.ok (some ord) →
      ord.status ≠ "FILLED" →
      execute_buy t amt env = (none, [Event.buyStage amt]))
  ∧ ((iteration t ienv).buyRes = none →
      withdrawCalls (iteration t ienv).events = []) := by
  refine ⟨?_, ?_, ?_, ?_⟩
  · intro h
    unfold execute_buy
    rcases hpm : place_market_buy amt env with ⟨res, fl⟩
    rw [hpm] at h
    cases res with
    | error e => rfl
    | ok o => simp at h
  · intro h
    unfold execute_buy
    rcases hpm : place_market_buy amt env with ⟨res, fl⟩
    rw [hpm] at h
    cases res with
    | error e => simp at h
    | ok o =>
      simp only at h
      rw [h]
  · intro ord h hst
    unfold execute_buy
    rcases hpm : place_market_buy amt env with ⟨res, fl⟩
    rw [hpm] at h
    cases res with
    | error e => simp at h
    | ok o =>
      simp only at h
      rw [h]
      dsimp only
      rw [if_neg hst]
  · intro h
    rcases iteration_cases t ienv with ⟨_, _, wc, _⟩ | ⟨ord, hb, _, _, _, _⟩ |
        ⟨ord, wid, hb, _, _, _, _⟩
    · exact wc
    · rw [h] at hb; cases hb
    · rw [h] at hb; cases hb

/-- Witness for C5 (amended) at a concrete wrong-status order: the buy stage
returns `None` with the silent trace. -/
theorem execute_buy_failure_handling_witness :
    execute_buy true 10 sampleBuyEnvNew = (none, [Event.buyStage 10]) := by
  apply (execute_buy_failure_handling true 10 sampleBuyEnvNew
    sampleIterEnvNew).2.2.1 ⟨"NEW", 5⟩
  · unfold place_market_buy sampleBuyEnvNew
    simp only [get_current_price]
    rw [if_neg (by norm_num : ¬(90 : ℚ) = 0)]
  · simp

/-- C10: an API exception in the balance query makes `get_balance` return 0,
so with any positive configured trade amount the iteration takes the
insufficient-funds path: the signal evaluator is never invoked and no pipeline
stage runs. -/
theorem balance_failure_skips (t : Bool) (env : IterEnv) (amt : ℚ)
    (hb : env.balance = Call.apiErr) (ha : env.amountRead = Except.ok amt)
    (hpos : 0 < amt) :
    get_balance env.balance = Except.ok 0
  ∧ evalCalls (iteration t env).events = 0
  ∧ buyCalls (iteration t env).events = []
  ∧ withdrawCalls (iteration t env).events = []
  ∧ stakeCalls (iteration t env).events = [] := by
  have hg : get_balance env.balance = Except.ok 0 := by rw [hb]; rfl
  have hev : evalCalls (iterationBody t env).events = 0
      ∧ buyCalls (iterationBody t env).events = []
      ∧ withdrawCalls (iterationBody t env).events = []
      ∧ stakeCalls (iterationBody t env).events = [] := by
    unfold iterationBody
    rw [hg, ha]
    dsimp only
    rw [if_neg (not_le.mpr hpos)]
    cases hi : env.intervalRead with
    | error e => exact ⟨rfl, rfl, rfl, rfl⟩
    | ok n => exact ⟨rfl, rfl, rfl, rfl⟩
  obtain ⟨_, _, _, e4, e5, e6, e7⟩ := iteration_calls t env
  exact ⟨hg, by rw [e7]; exact hev.1, by rw [e6]; exact hev.2.1,
    by rw [e4]; exact hev.2.2.1, by rw [e5]; exact hev.2.2.2⟩

/-- Witness for C10 at a concrete environment whose balance query hits an API
exception and whose configured amount is 10: the signal evaluator never runs. -/
theorem balance_failure_skips_witness :
    evalCalls (iteration true sampleApiErrEnv).events = 0 :=
  (balance_failure_skips true sampleApiErrEnv 10 rfl rfl (by norm_num)).2.1

lemma listMean_nonneg (xs : List ℚ) (h : ∀ x ∈ xs, 0 ≤ x) : 0 ≤ listMean xs :=
  div_nonneg (List.sum_nonneg h) (Nat.cast_nonneg _)

lemma gainsOf_nonneg (cs : List ℚ) : ∀ x ∈ gainsOf cs, 0 ≤ x := by
  intro x hx
  rw [gainsOf, List.mem_map] at hx
  obtain ⟨c, _, rfl⟩ := hx
  by_cases hc : 0 < c
  · rw [if_pos hc]; exact le_of_lt hc
  · rw [if_neg hc]

lemma lossesOf_nonneg (cs : List ℚ) : ∀ x ∈ lossesOf cs, 0 ≤ x := by
  intro x hx
  rw [lossesOf, List.mem_map] at hx
  obtain ⟨c, _, rfl⟩ := hx
  by_cases hc : c < 0
  · rw [if_pos hc]; linarith
  · rw [if_neg hc]

lemma priceChanges_length (ks : List Kline) :
    (priceChanges ks).length = ks.length - 1 := by
  rw [priceChanges, List.length_map, List.length_zip, List.length_tail]
  omega

/-- C6: with at least two candles the delta list is nonempty and the computed
oscillator lies in [0, 100]; when every close-to-close delta is non-negative
(so the average loss is 0) the oscillator is exactly 100. -/
theorem rsi_bounds (ks : List Kline) (h2 : 2 ≤ ks.length) :
    ∃ r, calculate_rsi (Call.ok ks) = some r ∧ 0 ≤ r ∧ r ≤ 100
      ∧ ((∀ c ∈ priceChanges ks, 0 ≤ c) → r = 100) := by
  have hksne : ¬(ks.isEmpty = true) := by
    cases ks with
    | nil => simp at h2
    | cons a l => simp
  have hchlen : (priceChanges ks).length = ks.length - 1 := priceChanges_length ks
  have hchne : ¬((priceChanges ks).isEmpty = true) := by
    rw [List.isEmpty_iff]
    intro h
    rw [h] at hchlen
    simp at hchlen
    omega
  have hag0 : 0 ≤ listMean (gainsOf (priceChanges ks)) :=
    listMean_nonneg _ (gainsOf_nonneg _)
  have hal0 : 0 ≤ listMean (lossesOf (priceChanges ks)) :=
    listMean_nonneg _ (lossesOf_nonneg _)
  unfold calculate_rsi
  simp only [get_klines]
  rw [if_neg hksne, if_neg hchne]
  by_cases h0 : listMean (lossesOf (priceChanges ks)) = 0
  · rw [if_pos h0]
    exact ⟨100, rfl, by norm_num, le_refl _, fun _ => rfl⟩
  · rw [if_neg h0]
    have hrs : 0 ≤ listMean (gainsOf (priceChanges ks)) /
        listMean (lossesOf (priceChanges ks)) := div_nonneg hag0 hal0
    refine ⟨_, rfl, ?_, ?_, ?_⟩
    · have h1 : (1 : ℚ) ≤ 1 + listMean (gainsOf (priceChanges ks)) /
          listMean (lossesOf (priceChanges ks)) := by linarith
      have hle := div_le_self (by norm_num : (0 : ℚ) ≤ 100) h1
      linarith
    · have hpos : 0 < (100 : ℚ) / (1 + listMean (gainsOf (priceChanges ks)) /
          listMean (lossesOf (priceChanges ks))) :=
        div_pos (by norm_num) (by linarith)
      linarith
    · intro hcpos
      exfalso
      apply h0
      have hz : ∀ x ∈ lossesOf (priceChanges ks), x = 0 := by
        intro x hx
        rw [lossesOf, List.mem_map] at hx
        obtain ⟨c, hc, rfl⟩ := hx
        rw [if_neg (not_lt.mpr (hcpos c hc))]
      rw [listMean, List.sum_eq_zero hz]
      simp

/-- Witness for C6 at a two-candle strictly increasing series: the oscillator
exists, is within bounds, and (all deltas being non-negative) equals 100. -/
theorem rsi_bounds_witness :
    2 ≤ ([flatKline 1, flatKline 2] : List Kline).length
  ∧ ∃ r, calculate_rsi (Call.ok [flatKline 1, flatKline 2]) = some r
      ∧ 0 ≤ r ∧ r ≤ 100
      ∧ ((∀ c ∈ priceChanges [flatKline 1, flatKline 2], 0 ≤ c) → r = 100) :=
  ⟨by simp, rsi_bounds [flatKline 1, flatKline 2] (by simp)⟩

end AxsBot
